import Mathlib

/-!
Shallow embedding of the validation pipeline of `focused_accuracy_system.py`
and the LLM-analysis truncation logic of `auto_agent_monitor.py`, together
with theorems settling the specification claims about them.

Conventions:
* Python dicts of layer results are embedded as association lists
  `List (String × LayerResult)` (Python dicts iterate in insertion order).
* Python `int` is embedded as `Int`; `int(a / b)` on nonnegative-denominator
  integer data truncates toward zero and is embedded as `Int.tdiv`.
* File *content* strings that the code slices and splits character-wise are
  embedded as `List Char` (Python indexes strings by code point); fixed
  message/label strings stay `String`.
-/

/-- Layer / verdict status strings used by the source
(`'PASS' | 'FAIL' | 'UNCERTAIN' | 'SKIP'`). -/
inductive Status where
  | PASS
  | FAIL
  | UNCERTAIN
  | SKIP
deriving DecidableEq, Repr

/-- The result dict every validation layer returns:
`{'status': ..., 'confidence': ..., 'issues': [...], 'reasoning': ...}`. -/
structure LayerResult where
  status : Status
  confidence : Int
  issues : List String
  reasoning : String
deriving DecidableEq, Repr

/-- The dict returned by `FocusedAccuracySystem.focused_combine`
(fields `status`, `confidence`, `issues`, `reasoning`, `should_auto_mark`,
`layer_results`). -/
structure Verdict where
  status : Status
  confidence : Int
  issues : List String
  reasoning : String
  should_auto_mark : Bool
  layer_results : List (String × LayerResult)
deriving DecidableEq, Repr

/-- Static weights from `FocusedAccuracySystem.__init__`
(`self.validation_layers`), looked up by
`self.validation_layers.get(layer, {}).get('weight', 5)` — unknown layer
names fall back to weight 5. -/
def layerWeight (layer : String) : Int :=
  if layer = "syntax_validation" then 25
  else if layer = "import_validation" then 20
  else if layer = "security_patterns" then 20
  else if layer = "execution_test" then 20
  else if layer = "smart_llm" then 10
  else if layer = "dependency_check" then 5
  else 5

/-- Per-layer score used by the weighted vote in `focused_combine`:
`confidence` on PASS, `100 - confidence` on FAIL, `50` otherwise
(the UNCERTAIN case; SKIP entries are filtered out before scoring). -/
def layerScore (r : LayerResult) : Int :=
  match r.status with
  | Status.PASS => r.confidence
  | Status.FAIL => 100 - r.confidence
  | _ => 50

/-- Rule-1 filter of `focused_combine`:
`result['status'] == 'FAIL' and result['confidence'] >= 95`. -/
def isDefinitiveFailure (p : String × LayerResult) : Bool :=
  p.2.status == Status.FAIL && decide (95 ≤ p.2.confidence)

/-- Rule-2 filter of `focused_combine`: FAIL with confidence ≥ 90 from
`security_patterns` or `import_validation`. -/
def isHighSecImpFailure (p : String × LayerResult) : Bool :=
  p.2.status == Status.FAIL && decide (90 ≤ p.2.confidence) &&
    (p.1 == "security_patterns" || p.1 == "import_validation")

/-- Rule-3 filter of `focused_combine`: FAIL with confidence ≥ 85. -/
def isMediumFailure (p : String × LayerResult) : Bool :=
  p.2.status == Status.FAIL && decide (85 ≤ p.2.confidence)

/-- Non-SKIP entries (the weighted-vote loop does `continue` on SKIP). -/
def isActiveLayer (p : String × LayerResult) : Bool :=
  !(p.2.status == Status.SKIP)

/-- `all_issues` accumulated by `extend`-ing the contributing layers'
issue lists in iteration order. -/
def combinedIssues (qs : List (String × LayerResult)) : List String :=
  (qs.map (fun p => p.2.issues)).flatten

/-- `'; '.join(reasoning_parts)` where each part is
`f-string of layer name, ': ', reasoning`. -/
def combinedReasoning (qs : List (String × LayerResult)) : String :=
  String.intercalate "; " (qs.map (fun p => p.1 ++ ": " ++ p.2.reasoning))

/-- `total_weighted_score` of the weighted-vote fallback: sum over non-SKIP
layers of `score * weight`. -/
def totalWeightedScore (results : List (String × LayerResult)) : Int :=
  ((results.filter isActiveLayer).map
    (fun p => layerScore p.2 * layerWeight p.1)).sum

/-- `total_weight` of the weighted-vote fallback. -/
def totalWeight (results : List (String × LayerResult)) : Int :=
  ((results.filter isActiveLayer).map (fun p => layerWeight p.1)).sum

/-- `final_confidence` of the weighted-vote fallback: 50 when no layer
contributed, else `min(98, int(total_weighted_score / total_weight))`. -/
def finalConfidence (results : List (String × LayerResult)) : Int :=
  if totalWeight results = 0 then 50
  else min 98 (Int.tdiv (totalWeightedScore results) (totalWeight results))

/-- `final_status` of the weighted-vote fallback. -/
def finalStatus (results : List (String × LayerResult)) : Status :=
  if totalWeight results = 0 then Status.UNCERTAIN
  else if 90 ≤ finalConfidence results then Status.PASS
  else if 75 ≤ finalConfidence results then Status.UNCERTAIN
  else Status.FAIL

/-- The dict returned at the end of `focused_combine` when none of the three
failure rules fired. -/
def weightedVerdict (results : List (String × LayerResult)) : Verdict :=
  { status := finalStatus results
    confidence := finalConfidence results
    issues := combinedIssues (results.filter isActiveLayer)
    reasoning := combinedReasoning (results.filter isActiveLayer)
    should_auto_mark :=
      decide (90 ≤ finalConfidence results) ||
        (finalStatus results == Status.FAIL &&
          decide (85 ≤ finalConfidence results))
    layer_results := results }

/-- `FocusedAccuracySystem.focused_combine`: the ordered rule cascade
(definitive failure → high-confidence security/import failure → two
medium-confidence failures → weighted vote). -/
def focused_combine (results : List (String × LayerResult)) : Verdict :=
  if results.filter isDefinitiveFailure ≠ [] then
    { status := Status.FAIL
      confidence := 95
      issues := combinedIssues (results.filter isDefinitiveFailure)
      reasoning := combinedReasoning (results.filter isDefinitiveFailure)
      should_auto_mark := true
      layer_results := results }
  else if results.filter isHighSecImpFailure ≠ [] then
    { status := Status.FAIL
      confidence := 92
      issues := combinedIssues (results.filter isHighSecImpFailure)
      reasoning := combinedReasoning (results.filter isHighSecImpFailure)
      should_auto_mark := true
      layer_results := results }
  else if 2 ≤ (results.filter isMediumFailure).length then
    { status := Status.FAIL
      confidence := 88
      issues := combinedIssues (results.filter isMediumFailure)
      reasoning := combinedReasoning (results.filter isMediumFailure)
      should_auto_mark := false
      layer_results := results }
  else
    weightedVerdict results

/-- The slice of the file content that `smart_llm_critical_only` embeds in
its prompt: the Python expression `content[:1000]` (a fixed 1000-character
prefix). -/
def smart_llm_submitted (content : List Char) : List Char :=
  content.take 1000

/-- The critical-issues prompt of `smart_llm_critical_only`, as a function of
the code slice spliced into the f-string. -/
def critical_prompt (code : List Char) : String :=
  "\n        Analyze this code for CRITICAL ISSUES ONLY:\n        \n        ```\n        " ++
  code.asString ++
  "\n        ```\n        \n        Focus ONLY on:\n        - Undefined variables that will cause NameError\n        - Missing required imports \n        - Obvious logical errors that prevent execution\n        \n        IGNORE:\n        - Code style, performance, best practices\n        - Subjective quality issues\n        - Design patterns\n        \n        Response format:\n        STATUS: [PASS/FAIL]\n        CONFIDENCE: [0-100]%\n        CRITICAL_ISSUE: [One specific issue or \"None\"]\n        \n        Only mark FAIL if there\x27s a definite runtime error.\n        "

/-- `FocusedAccuracySystem.smart_llm_critical_only`. The OpenAI
chat-completions call, the response parsing performed by
`parse_critical_llm_response`, and the surrounding exception handler are
abstracted as an `oracle` mapping the submitted prompt to the resulting
layer dict; the short-circuit path never consults the oracle. The
short-circuit filter condition (`status == 'FAIL' and confidence >= 95`) is
the same expression as the aggregator rule-1 filter `isDefinitiveFailure`. -/
def smart_llm_critical_only (oracle : String → LayerResult)
    (content : List Char)
    (previous_results : List (String × LayerResult)) : LayerResult :=
  let high_conf_failures :=
    (previous_results.filter isDefinitiveFailure).map Prod.fst
  if high_conf_failures ≠ [] then
    { status := Status.FAIL
      confidence := 100
      issues := []
      reasoning := "Confirmed by: " ++ String.intercalate ", " high_conf_failures }
  else
    oracle (critical_prompt (smart_llm_submitted content))

/-- Possible outcomes of the
`subprocess.run(['python3', '-m', 'py_compile', temp_file], timeout=5)` call
in `execution_test`: normal completion with a return code and (stripped)
stderr text, a `subprocess.TimeoutExpired`, or some other raised
exception. -/
inductive RunOutcome where
  | completed (returncode : Int) (stderr : String)
  | timedOut
  | raised (msg : String)
deriving DecidableEq, Repr

/-- One `execution_test` invocation: the layer dict it returns plus
resource-tracking flags recording whether the ephemeral temp file was
created (`tempfile.NamedTemporaryFile(delete=False)`) and whether
`os.unlink(temp_file)` ran on it. -/
structure ExecutionRun where
  result : LayerResult
  tempFileCreated : Bool
  tempFileDeleted : Bool
deriving DecidableEq, Repr

/-- `FocusedAccuracySystem.execution_test`. Non-`.py` paths SKIP before any
temp file is written. Otherwise the temp file is written with
`delete=False`, the compile subprocess runs, and `os.unlink(temp_file)`
executes only on the straight-line path after `subprocess.run` returns:
the `except subprocess.TimeoutExpired` and `except Exception` handlers
return without unlinking. -/
def execution_test (pathEndsWithPy : Bool) (run : RunOutcome) : ExecutionRun :=
  if !pathEndsWithPy then
    { result := ⟨Status.SKIP, 0, [], "Not Python file"⟩
      tempFileCreated := false
      tempFileDeleted := false }
  else
    match run with
    | RunOutcome.completed rc stderr =>
        { result :=
            if rc = 0 then
              ⟨Status.PASS, 95, [], "Code compiles successfully"⟩
            else
              ⟨Status.FAIL, 95, ["Compilation error: " ++ stderr],
                "Failed to compile"⟩
          tempFileCreated := true
          tempFileDeleted := true }
    | RunOutcome.timedOut =>
        { result := ⟨Status.FAIL, 90, ["Compilation timeout"],
            "Compilation took too long"⟩
          tempFileCreated := true
          tempFileDeleted := false }
    | RunOutcome.raised msg =>
        { result := ⟨Status.UNCERTAIN, 50, ["Test error: " ++ msg],
            "Could not test execution"⟩
          tempFileCreated := true
          tempFileDeleted := false }

/-- The `'... (content truncated) ...'` marker line inserted by the smart
truncation branch of `AgentChangeHandler.get_llm_analysis`. -/
def truncationMarker : List Char := "... (content truncated) ...".toList

/-- Python `content[-m:]` as used by the `end` truncation branch
(`m = 0` yields the whole string in Python, since `-0 == 0`). -/
def takeLast (m : Nat) (s : List Char) : List Char :=
  if m = 0 then s else s.drop (s.length - m)

/-- The content-selection and context-note logic at the top of
`AgentChangeHandler.get_llm_analysis` (auto_agent_monitor.py). The
configuration values `AccuracyConfig.MAX_ANALYSIS_CHARS` and
`AccuracyConfig.TRUNCATION_STRATEGY` are passed in as parameters; returns
the pair `(code_to_analyze, context_note)`. -/
def get_llm_analysis_selection (maxChars : Nat) (strategy : String)
    (content : List Char) : List Char × String :=
  if content.length ≤ maxChars then
    (content, "Full file content")
  else if strategy = "smart" then
    let lines := content.splitOn '\n'
    if 50 < lines.length then
      (List.intercalate ['\n']
        (lines.take 25 ++ [truncationMarker] ++
          lines.drop (lines.length - 25)),
       "Truncated content (first/last 25 lines)")
    else
      (content.take maxChars ++ "...".toList,
       "Truncated content (first " ++ toString maxChars ++ " chars)")
  else if strategy = "beginning" then
    (content.take maxChars ++ "...".toList,
     "Truncated content (first " ++ toString maxChars ++ " chars)")
  else
    ("...".toList ++ takeLast maxChars content,
     "Truncated content (last " ++ toString maxChars ++ " chars)")

/-- Scenario-D layer results: all six layers PASS with the confidences the
individual layers award on their success paths
({100, 95, 90, 95, 90, 85}), in registration order. -/
def allPassResults : List (String × LayerResult) :=
  [("syntax_validation", ⟨Status.PASS, 100, [], "Perfect syntax"⟩),
   ("import_validation", ⟨Status.PASS, 95, [], "Import analysis looks good"⟩),
   ("security_patterns",
     ⟨Status.PASS, 90, [], "No security vulnerabilities detected"⟩),
   ("execution_test", ⟨Status.PASS, 95, [], "Code compiles successfully"⟩),
   ("smart_llm", ⟨Status.PASS, 90, [], "LLM analysis"⟩),
   ("dependency_check",
     ⟨Status.PASS, 85, [], "Dependencies look good (1 imports)"⟩)]

/-- A layer map holding one definitive (confidence-100) syntax failure next
to a passing layer. -/
def syntaxFailResults : List (String × LayerResult) :=
  [("syntax_validation",
     ⟨Status.FAIL, 100, ["SyntaxError line 2: expected colon"],
       "Definitive syntax error"⟩),
   ("security_patterns",
     ⟨Status.PASS, 90, [], "No security vulnerabilities detected"⟩)]

/-- A constant stand-in LLM oracle used to instantiate oracle-quantified
theorems at a concrete transport. -/
def constOracle : String → LayerResult :=
  fun _ => ⟨Status.UNCERTAIN, 50, [], "LLM analysis"⟩

/-- A 1500-character content whose length exceeds the fixed 1000-character
prompt slice of the focused LLM layer. -/
def longContent1500 : List Char := List.replicate 1500 'a'

/-- A 60-line content (119 characters) used to exercise the smart
truncation branch. -/
def demoLongContent : List Char :=
  List.intercalate ['\n'] (List.replicate 60 ['x'])

/-- A layer map with one passing layer and one uncertain layer: no failure
rule applies, so the weighted vote decides. -/
def mixedPassResults : List (String × LayerResult) :=
  [("syntax_validation", ⟨Status.PASS, 100, [], "Perfect syntax"⟩),
   ("smart_llm", ⟨Status.UNCERTAIN, 50, [], "LLM analysis"⟩)]

/-- A layer map with two corroborating medium-confidence failures, neither
definitive and neither from the security or import layer. -/
def mediumFailResults : List (String × LayerResult) :=
  [("execution_test",
     ⟨Status.FAIL, 90, ["Compilation timeout"], "Compilation took too long"⟩),
   ("smart_llm",
     ⟨Status.FAIL, 85, ["Undefined variable x"], "Critical issue found"⟩)]

/-- A layer map with a single isolated medium-confidence failure. -/
def singleFailResults : List (String × LayerResult) :=
  [("execution_test",
     ⟨Status.FAIL, 90, ["Compilation timeout"], "Compilation took too long"⟩)]

/-! ## Helper lemmas -/

theorem filter_ne_nil_of_mem {α : Type} {p : α → Bool} {l : List α} {a : α}
    (ha : a ∈ l) (hpa : p a = true) : l.filter p ≠ [] := by
  intro h
  exact (List.filter_eq_nil_iff.mp h a ha) hpa

theorem isDefinitiveFailure_iff (p : String × LayerResult) :
    isDefinitiveFailure p = true ↔
      p.2.status = Status.FAIL ∧ 95 ≤ p.2.confidence := by
  simp [isDefinitiveFailure]

theorem isHighSecImpFailure_iff (p : String × LayerResult) :
    isHighSecImpFailure p = true ↔
      p.2.status = Status.FAIL ∧ 90 ≤ p.2.confidence ∧
        (p.1 = "security_patterns" ∨ p.1 = "import_validation") := by
  simp [isHighSecImpFailure, and_assoc]

theorem isMediumFailure_iff (p : String × LayerResult) :
    isMediumFailure p = true ↔
      p.2.status = Status.FAIL ∧ 85 ≤ p.2.confidence := by
  simp [isMediumFailure]

theorem isActiveLayer_iff (p : String × LayerResult) :
    isActiveLayer p = true ↔ p.2.status ≠ Status.SKIP := by
  simp [isActiveLayer]

/-! ## Claim theorems -/

/-- C1: if any layer result has status FAIL with confidence at least 95
(for example the syntax layer failing at confidence 100), the aggregate
verdict is FAIL at confidence exactly 95 with `should_auto_mark = true`,
and its issues and reasoning are drawn only from the qualifying layers,
regardless of every other layer's result. -/
theorem focused_combine_definitive_failure
    (results : List (String × LayerResult))
    (h : ∃ p ∈ results, p.2.status = Status.FAIL ∧ 95 ≤ p.2.confidence) :
    focused_combine results =
      { status := Status.FAIL
        confidence := 95
        issues := combinedIssues (results.filter isDefinitiveFailure)
        reasoning := combinedReasoning (results.filter isDefinitiveFailure)
        should_auto_mark := true
        layer_results := results } := by
  obtain ⟨p, hp, hcond⟩ := h
  have hf : results.filter isDefinitiveFailure ≠ [] :=
    filter_ne_nil_of_mem hp ((isDefinitiveFailure_iff p).mpr hcond)
  rw [focused_combine, if_pos hf]

/-- Witness for C1: a concrete layer map with a confidence-100 syntax
failure and an unrelated passing layer. -/
theorem focused_combine_definitive_failure_witness :
    (∃ p ∈ syntaxFailResults,
        p.2.status = Status.FAIL ∧ 95 ≤ p.2.confidence) ∧
    focused_combine syntaxFailResults =
      { status := Status.FAIL
        confidence := 95
        issues := combinedIssues (syntaxFailResults.filter isDefinitiveFailure)
        reasoning :=
          combinedReasoning (syntaxFailResults.filter isDefinitiveFailure)
        should_auto_mark := true
        layer_results := syntaxFailResults } :=
  ⟨by decide, focused_combine_definitive_failure syntaxFailResults (by decide)⟩

theorem five_le_layerWeight (s : String) : 5 ≤ layerWeight s := by
  unfold layerWeight
  split_ifs <;> norm_num

theorem totalWeight_pos (results : List (String × LayerResult))
    (h : ∃ p ∈ results, p.2.status ≠ Status.SKIP) :
    0 < totalWeight results := by
  obtain ⟨p, hp, hs⟩ := h
  have hmem : p ∈ results.filter isActiveLayer :=
    List.mem_filter.mpr ⟨hp, (isActiveLayer_iff p).mpr hs⟩
  have hne : (results.filter isActiveLayer).map
      (fun p => layerWeight p.1) ≠ [] := by
    simp only [ne_eq, List.map_eq_nil_iff]
    exact List.ne_nil_of_mem hmem
  refine List.sum_pos _ ?_ hne
  intro x hx
  obtain ⟨q, _, rfl⟩ := List.mem_map.mp hx
  exact lt_of_lt_of_le (by norm_num) (five_le_layerWeight q.1)

theorem layerScore_nonneg (r : LayerResult)
    (h0 : 0 ≤ r.confidence) (h1 : r.confidence ≤ 100) :
    0 ≤ layerScore r := by
  cases hs : r.status <;> simp [layerScore, hs] <;> omega

theorem totalWeightedScore_nonneg (results : List (String × LayerResult))
    (hconf : ∀ p ∈ results, 0 ≤ p.2.confidence ∧ p.2.confidence ≤ 100) :
    0 ≤ totalWeightedScore results := by
  refine List.sum_nonneg ?_
  intro x hx
  obtain ⟨q, hq, rfl⟩ := List.mem_map.mp hx
  have hq' := hconf q (List.mem_filter.mp hq).1
  exact mul_nonneg (layerScore_nonneg q.2 hq'.1 hq'.2)
    (le_trans (by norm_num) (five_le_layerWeight q.1))

theorem focused_combine_eq_weighted
    (results : List (String × LayerResult))
    (h1 : ∀ p ∈ results, ¬(p.2.status = Status.FAIL ∧ 95 ≤ p.2.confidence))
    (h2 : ∀ p ∈ results, ¬(p.2.status = Status.FAIL ∧ 90 ≤ p.2.confidence ∧
            (p.1 = "security_patterns" ∨ p.1 = "import_validation")))
    (h3 : (results.filter isMediumFailure).length < 2) :
    focused_combine results = weightedVerdict results := by
  have hf1 : results.filter isDefinitiveFailure = [] :=
    List.filter_eq_nil_iff.mpr fun p hp hpt =>
      h1 p hp ((isDefinitiveFailure_iff p).mp hpt)
  have hf2 : results.filter isHighSecImpFailure = [] :=
    List.filter_eq_nil_iff.mpr fun p hp hpt =>
      h2 p hp ((isHighSecImpFailure_iff p).mp hpt)
  have h3' : ¬(2 ≤ (results.filter isMediumFailure).length) := by omega
  rw [focused_combine, hf1, hf2]
  simp [h3']

/-- C2: when none of the three failure rules fires and at least one layer is
non-SKIP, the aggregate confidence equals
min(98, ⌊Σ(score·weight) / Σ(weight)⌋) with PASS-score `confidence`,
FAIL-score `100 − confidence`, UNCERTAIN-score 50 under the static weights;
the status is PASS at ≥ 90, UNCERTAIN at 75–89, FAIL below 75; and
should_auto_mark holds exactly when confidence ≥ 90 or the status is FAIL
with confidence ≥ 85. -/
theorem focused_combine_weighted_vote
    (results : List (String × LayerResult))
    (hconf : ∀ p ∈ results, 0 ≤ p.2.confidence ∧ p.2.confidence ≤ 100)
    (h1 : ∀ p ∈ results, ¬(p.2.status = Status.FAIL ∧ 95 ≤ p.2.confidence))
    (h2 : ∀ p ∈ results, ¬(p.2.status = Status.FAIL ∧ 90 ≤ p.2.confidence ∧
            (p.1 = "security_patterns" ∨ p.1 = "import_validation")))
    (h3 : (results.filter isMediumFailure).length < 2)
    (h4 : ∃ p ∈ results, p.2.status ≠ Status.SKIP) :
    (focused_combine results).confidence =
      min 98 (Int.fdiv (totalWeightedScore results) (totalWeight results)) ∧
    (focused_combine results).status =
      (if 90 ≤ (focused_combine results).confidence then Status.PASS
       else if 75 ≤ (focused_combine results).confidence then Status.UNCERTAIN
       else Status.FAIL) ∧
    ((focused_combine results).should_auto_mark = true ↔
      (90 ≤ (focused_combine results).confidence ∨
        ((focused_combine results).status = Status.FAIL ∧
          85 ≤ (focused_combine results).confidence))) := by
  have hw := focused_combine_eq_weighted results h1 h2 h3
  have htw : 0 < totalWeight results := totalWeight_pos results h4
  have htw0 : ¬(totalWeight results = 0) := by omega
  have htws : 0 ≤ totalWeightedScore results :=
    totalWeightedScore_nonneg results hconf
  have hdiv : Int.tdiv (totalWeightedScore results) (totalWeight results) =
      Int.fdiv (totalWeightedScore results) (totalWeight results) := by
    rw [Int.tdiv_eq_ediv htws (le_of_lt htw),
      Int.fdiv_eq_ediv _ (le_of_lt htw)]
  have hfc : finalConfidence results =
      min 98 (Int.fdiv (totalWeightedScore results) (totalWeight results)) := by
    rw [finalConfidence, if_neg htw0, hdiv]
  rw [hw]
  simp only [weightedVerdict]
  refine ⟨hfc, ?_, ?_⟩
  · rw [finalStatus, if_neg htw0]
  · simp only [Bool.or_eq_true, decide_eq_true_eq, Bool.and_eq_true,
      beq_iff_eq]

/-- Witness for C2: one PASS layer (weight 25, confidence 100) and one
UNCERTAIN layer (weight 10, score 50) give ⌊3000/35⌋ = 85, an UNCERTAIN
verdict without auto-mark. -/
theorem focused_combine_weighted_vote_witness :
    (∀ p ∈ mixedPassResults, 0 ≤ p.2.confidence ∧ p.2.confidence ≤ 100) ∧
    ((focused_combine mixedPassResults).confidence =
      min 98 (Int.fdiv (totalWeightedScore mixedPassResults)
        (totalWeight mixedPassResults)) ∧
    (focused_combine mixedPassResults).status =
      (if 90 ≤ (focused_combine mixedPassResults).confidence then Status.PASS
       else if 75 ≤ (focused_combine mixedPassResults).confidence then
         Status.UNCERTAIN
       else Status.FAIL) ∧
    ((focused_combine mixedPassResults).should_auto_mark = true ↔
      (90 ≤ (focused_combine mixedPassResults).confidence ∨
        ((focused_combine mixedPassResults).status = Status.FAIL ∧
          85 ≤ (focused_combine mixedPassResults).confidence)))) :=
  ⟨by decide,
   focused_combine_weighted_vote mixedPassResults (by decide) (by decide)
     (by decide) (by decide) (by decide)⟩

/-- C8: when no layer fails definitively (≥ 95) and neither security nor
imports fails at ≥ 90, but at least two layers fail at confidence ≥ 85, the
aggregate is FAIL at confidence 88 without auto-mark, reporting all the
qualifying layers' issues and reasoning. -/
theorem focused_combine_corroborated
    (results : List (String × LayerResult))
    (h1 : ∀ p ∈ results, ¬(p.2.status = Status.FAIL ∧ 95 ≤ p.2.confidence))
    (h2 : ∀ p ∈ results, ¬(p.2.status = Status.FAIL ∧ 90 ≤ p.2.confidence ∧
            (p.1 = "security_patterns" ∨ p.1 = "import_validation")))
    (h3 : 2 ≤ (results.filter isMediumFailure).length) :
    focused_combine results =
      { status := Status.FAIL
        confidence := 88
        issues := combinedIssues (results.filter isMediumFailure)
        reasoning := combinedReasoning (results.filter isMediumFailure)
        should_auto_mark := false
        layer_results := results } := by
  have hf1 : results.filter isDefinitiveFailure = [] :=
    List.filter_eq_nil_iff.mpr fun p hp hpt =>
      h1 p hp ((isDefinitiveFailure_iff p).mp hpt)
  have hf2 : results.filter isHighSecImpFailure = [] :=
    List.filter_eq_nil_iff.mpr fun p hp hpt =>
      h2 p hp ((isHighSecImpFailure_iff p).mp hpt)
  rw [focused_combine, hf1, hf2]
  simp [h3]

/-- Witness for C8: an execution failure at 90 and an LLM failure at 85
corroborate each other. -/
theorem focused_combine_corroborated_witness :
    (∀ p ∈ mediumFailResults,
      ¬(p.2.status = Status.FAIL ∧ 95 ≤ p.2.confidence)) ∧
    (2 ≤ (mediumFailResults.filter isMediumFailure).length) ∧
    focused_combine mediumFailResults =
      { status := Status.FAIL
        confidence := 88
        issues := combinedIssues (mediumFailResults.filter isMediumFailure)
        reasoning :=
          combinedReasoning (mediumFailResults.filter isMediumFailure)
        should_auto_mark := false
        layer_results := mediumFailResults } :=
  ⟨by decide, by decide,
   focused_combine_corroborated mediumFailResults (by decide) (by decide)
     (by decide)⟩

theorem totalWeight_nonneg (results : List (String × LayerResult)) :
    0 ≤ totalWeight results := by
  refine List.sum_nonneg ?_
  intro x hx
  obtain ⟨q, _, rfl⟩ := List.mem_map.mp hx
  exact le_trans (by norm_num) (five_le_layerWeight q.1)

/-- C9: for every input map of layer results whose confidences lie in the
data model's 0–100 range, the aggregate verdict's confidence lies in
[0, 100]. -/
theorem focused_combine_confidence_range
    (results : List (String × LayerResult))
    (hconf : ∀ p ∈ results, 0 ≤ p.2.confidence ∧ p.2.confidence ≤ 100) :
    0 ≤ (focused_combine results).confidence ∧
      (focused_combine results).confidence ≤ 100 := by
  rw [focused_combine]
  split_ifs
  · exact ⟨by norm_num, by norm_num⟩
  · exact ⟨by norm_num, by norm_num⟩
  · exact ⟨by norm_num, by norm_num⟩
  · simp only [weightedVerdict]
    rw [finalConfidence]
    split_ifs with htw
    · norm_num
    · constructor
      · refine le_min (by norm_num) ?_
        exact Int.tdiv_nonneg (totalWeightedScore_nonneg results hconf)
          (totalWeight_nonneg results)
      · exact le_trans (min_le_left _ _) (by norm_num)

/-- Witness for C9: a single isolated execution failure lands in the
weighted-vote branch with confidence ⌊200/20⌋ = 10, inside [0, 100]. -/
theorem focused_combine_confidence_range_witness :
    (∀ p ∈ singleFailResults,
      0 ≤ p.2.confidence ∧ p.2.confidence ≤ 100) ∧
    (0 ≤ (focused_combine singleFailResults).confidence ∧
      (focused_combine singleFailResults).confidence ≤ 100) :=
  ⟨by decide, focused_combine_confidence_range singleFailResults (by decide)⟩

/-- C10: whenever the aggregate verdict has status PASS, it carries
should_auto_mark = true (PASS arises only in the weighted-vote branch with
confidence ≥ 90, which satisfies the auto-mark condition). -/
theorem focused_combine_pass_auto_mark
    (results : List (String × LayerResult))
    (h : (focused_combine results).status = Status.PASS) :
    (focused_combine results).should_auto_mark = true := by
  rw [focused_combine] at h ⊢
  split_ifs at h ⊢
  simp only [weightedVerdict] at h ⊢
  rw [finalStatus] at h
  by_cases htw : totalWeight results = 0
  · rw [if_pos htw] at h
    simp at h
  · rw [if_neg htw] at h
    by_cases h90 : 90 ≤ finalConfidence results
    · simp [h90]
    · rw [if_neg h90] at h
      by_cases h75 : 75 ≤ finalConfidence results
      · rw [if_pos h75] at h
        simp at h
      · rw [if_neg h75] at h
        simp at h

/-- Witness for C10: the all-PASS scenario yields a PASS verdict, and the
theorem forces auto-mark. -/
theorem focused_combine_pass_auto_mark_witness :
    (focused_combine allPassResults).status = Status.PASS ∧
    (focused_combine allPassResults).should_auto_mark = true :=
  ⟨by decide, focused_combine_pass_auto_mark allPassResults (by decide)⟩

/-- C3: if any previously computed layer result has status FAIL with
confidence at least 95, the LLM reviewer layer short-circuits: it returns
FAIL at confidence 100 with reasoning naming the confirming layer(s), and
its output does not depend on the model transport at all (the oracle is
never consulted). -/
theorem smart_llm_short_circuit
    (oracle : String → LayerResult) (content : List Char)
    (prev : List (String × LayerResult))
    (h : ∃ p ∈ prev, p.2.status = Status.FAIL ∧ 95 ≤ p.2.confidence) :
    smart_llm_critical_only oracle content prev =
      { status := Status.FAIL
        confidence := 100
        issues := []
        reasoning := "Confirmed by: " ++ String.intercalate ", "
          ((prev.filter isDefinitiveFailure).map Prod.fst) } ∧
    ∀ oracle2 : String → LayerResult,
      smart_llm_critical_only oracle2 content prev =
        smart_llm_critical_only oracle content prev := by
  obtain ⟨p, hp, hcond⟩ := h
  have hf : prev.filter isDefinitiveFailure ≠ [] :=
    filter_ne_nil_of_mem hp ((isDefinitiveFailure_iff p).mpr hcond)
  have hm : (prev.filter isDefinitiveFailure).map Prod.fst ≠ [] := by
    simp only [ne_eq, List.map_eq_nil_iff]
    exact hf
  constructor
  · simp only [smart_llm_critical_only]
    rw [if_pos hm]
  · intro oracle2
    simp only [smart_llm_critical_only]
    rw [if_pos hm, if_pos hm]

/-- Witness for C3: a definitive syntax failure in the previous results
forces the short-circuit for a concrete oracle and content. -/
theorem smart_llm_short_circuit_witness :
    (∃ p ∈ syntaxFailResults,
      p.2.status = Status.FAIL ∧ 95 ≤ p.2.confidence) ∧
    (smart_llm_critical_only constOracle "x".toList syntaxFailResults =
      { status := Status.FAIL
        confidence := 100
        issues := []
        reasoning := "Confirmed by: " ++ String.intercalate ", "
          ((syntaxFailResults.filter isDefinitiveFailure).map Prod.fst) } ∧
    ∀ oracle2 : String → LayerResult,
      smart_llm_critical_only oracle2 "x".toList syntaxFailResults =
        smart_llm_critical_only constOracle "x".toList syntaxFailResults) :=
  ⟨by decide,
   smart_llm_short_circuit constOracle "x".toList syntaxFailResults
     (by decide)⟩

/-- C4 (behaviour of the code at the failing input): when the compile
subprocess on a Python file times out — and likewise when it raises any
other exception — `execution_test` returns without deleting the ephemeral
temp file it created: `os.unlink` runs only on the straight-line path, so
the file leaks, contradicting the guaranteed-cleanup claim. -/
theorem execution_test_timeout_leaks_temp_file :
    execution_test true RunOutcome.timedOut =
      { result := ⟨Status.FAIL, 90, ["Compilation timeout"],
          "Compilation took too long"⟩
        tempFileCreated := true
        tempFileDeleted := false } ∧
    (execution_test true (RunOutcome.raised "PermissionError")).tempFileCreated
        = true ∧
    (execution_test true (RunOutcome.raised "PermissionError")).tempFileDeleted
        = false :=
  ⟨rfl, rfl, rfl⟩

/-- C5 counterexample: with all six layers PASS at confidences
{100, 95, 90, 95, 90, 85} under weights {25, 20, 20, 20, 10, 5} the
weighted vote yields ⌊9425/100⌋ = 94, so the claimed verdict "PASS at
confidence 93" does not occur. -/
theorem all_pass_scenario_not_confidence_93 :
    ¬((focused_combine allPassResults).status = Status.PASS ∧
      (focused_combine allPassResults).confidence = 93 ∧
      (focused_combine allPassResults).should_auto_mark = true) := by
  decide

/-- C5 (amended): the all-PASS scenario aggregates to PASS at confidence 94
with should_auto_mark = true. -/
theorem all_pass_scenario_confidence_94 :
    (focused_combine allPassResults).status = Status.PASS ∧
    (focused_combine allPassResults).confidence = 94 ∧
    (focused_combine allPassResults).should_auto_mark = true := by
  decide

/-- C6 counterexample: a 1500-character content is within a configured
maxAnalysisChars of 1500, yet the focused LLM reviewer layer does not
submit the full content — its prompt embeds only `content[:1000]`. -/
theorem smart_llm_not_truncation_governed :
    longContent1500.length ≤ 1500 ∧
    smart_llm_submitted longContent1500 ≠ longContent1500 := by
  constructor
  · simp only [longContent1500, List.length_replicate]
    omega
  · intro hEq
    have hlen := congrArg List.length hEq
    simp only [smart_llm_submitted, longContent1500, List.length_take,
      List.length_replicate] at hlen
    omega

/-- C6 (amended): the focused LLM reviewer layer's submission is a fixed
1000-character prefix, independent of maxAnalysisChars and
truncationStrategy: the layer's output depends on the content only through
its first 1000 characters, and the full content is submitted exactly when
the content has at most 1000 characters. -/
theorem smart_llm_submits_first_1000 :
    (∀ (oracle : String → LayerResult)
        (prev : List (String × LayerResult)) (c₁ c₂ : List Char),
        c₁.take 1000 = c₂.take 1000 →
        smart_llm_critical_only oracle c₁ prev =
          smart_llm_critical_only oracle c₂ prev) ∧
    (∀ c : List Char, c.length ≤ 1000 → smart_llm_submitted c = c) := by
  constructor
  · intro oracle prev c₁ c₂ hpre
    simp only [smart_llm_critical_only, smart_llm_submitted, hpre]
  · intro c hc
    simpa [smart_llm_submitted] using List.take_of_length_le hc

/-- Witness for C6 (amended): two contents agreeing on their first 1000
characters produce identical layer results, and a short content is
submitted whole. -/
theorem smart_llm_submits_first_1000_witness :
    smart_llm_critical_only constOracle (List.replicate 1000 'a' ++ ['b']) []
        = smart_llm_critical_only constOracle
            (List.replicate 1000 'a' ++ ['c']) [] ∧
    smart_llm_submitted "ok".toList = "ok".toList :=
  ⟨smart_llm_submits_first_1000.1 constOracle []
      (List.replicate 1000 'a' ++ ['b'])
      (List.replicate 1000 'a' ++ ['c'])
      (by rw [List.take_left' (List.length_replicate 1000 'a'),
            List.take_left' (List.length_replicate 1000 'a')]),
   smart_llm_submits_first_1000.2 "ok".toList (by decide)⟩

/-- C7: for content of length L and maxAnalysisChars M, the monitor's LLM
analysis selection returns the full content unchanged when L ≤ M; under
the smart strategy with L > M and more than 50 lines it returns exactly
the first 25 lines, the "(content truncated)" marker line and the last 25
lines, joined by newlines; and the accompanying context note always names
the applied selection. -/
theorem get_llm_analysis_selection_spec
    (maxChars : Nat) (strategy : String) (content : List Char) :
    (content.length ≤ maxChars →
      get_llm_analysis_selection maxChars strategy content =
        (content, "Full file content")) ∧
    (maxChars < content.length →
      50 < (content.splitOn '\n').length →
      get_llm_analysis_selection maxChars "smart" content =
        (List.intercalate ['\n']
          ((content.splitOn '\n').take 25 ++ [truncationMarker] ++
            (content.splitOn '\n').drop
              ((content.splitOn '\n').length - 25)),
         "Truncated content (first/last 25 lines)")) ∧
    ((get_llm_analysis_selection maxChars strategy content).2 ∈
      ["Full file content",
       "Truncated content (first/last 25 lines)",
       "Truncated content (first " ++ toString maxChars ++ " chars)",
       "Truncated content (last " ++ toString maxChars ++ " chars)"]) := by
  refine ⟨?_, ?_, ?_⟩
  · intro h
    rw [get_llm_analysis_selection, if_pos h]
  · intro h1 h2
    rw [get_llm_analysis_selection, if_neg (not_le.mpr h1), if_pos rfl]
    simp only [if_pos h2]
  · simp only [get_llm_analysis_selection]
    split_ifs <;> simp

/-- Witness for C7: a 2-character content fits within maxAnalysisChars 10;
a 60-line content of 119 characters with maxAnalysisChars 5 takes the
smart first/last-25-lines branch. -/
theorem get_llm_analysis_selection_spec_witness :
    get_llm_analysis_selection 10 "smart" "hi".toList =
      ("hi".toList, "Full file content") ∧
    get_llm_analysis_selection 5 "smart" demoLongContent =
      (List.intercalate ['\n']
        ((demoLongContent.splitOn '\n').take 25 ++ [truncationMarker] ++
          (demoLongContent.splitOn '\n').drop
            ((demoLongContent.splitOn '\n').length - 25)),
       "Truncated content (first/last 25 lines)") :=
  ⟨(get_llm_analysis_selection_spec 10 "smart" "hi".toList).1 (by decide),
   (get_llm_analysis_selection_spec 5 "smart" demoLongContent).2.1
     (by decide) (by decide)⟩
